import Mathlib

/-!
# Verification of the plane-system device-communication layer

A shallow embedding, in Lean 4, of the parts of the `plane-system`
repository that its specification makes claims about:

* the camera wire codecs for shutter speed, ISO and aperture
  (`crates/main-camera/src/state.rs`);
* the MAVLink v1 frame synchronisation and parsing loop and the
  parameter/command acknowledgement protocol (`src/pixhawk/client.rs`);
* the camera protocol handshake and version negotiation
  (`crates/main-camera/src/interface.rs`);
* the verify-after-write mode helper (`src/camera/client.rs`);
* the command-bus reply primitive (`src/main.rs`);
* the continuous-capture interval validation
  (`src/camera/client/command.rs`).

Machine integers are modelled as `Nat` with explicit masks where the
source relies on fixed-width behaviour; fallible operations return
`Option`/`Except`-like result types; the asynchronous socket is
modelled as an explicit byte queue.
-/

/-! ## Wire codecs (`crates/main-camera/src/state.rs`)

The Rust enums `ShutterSpeed`, `Iso` and `Aperture` implement
`FromPrimitive`/`ToPrimitive` by hand.  `from_u64` is total (it always
returns `Some`), so decoding can never panic; `to_u64` also always
returns `Some`.  The embedding mirrors both directions exactly,
including the sentinel values. -/

namespace CameraState

/-- Shutter speed: either the bulb sentinel or a `numerator/denominator`
pair of 16-bit halves (`state.rs` lines 124–132). -/
inductive ShutterSpeed where
  | bulb : ShutterSpeed
  | fraction (numerator denominator : Nat) : ShutterSpeed
deriving DecidableEq, Repr

/-- A `ShutterSpeed` is representable when its halves fit in a `u16`,
as they do in the Rust type. -/
def ShutterSpeed.wf : ShutterSpeed → Prop
  | .bulb => True
  | .fraction numerator denominator => numerator < 65536 ∧ denominator < 65536

/-- `ShutterSpeed::from_u64` (`state.rs` lines 139–148): `0xFFFF_FFFE`
decodes to bulb, anything else splits into two 16-bit halves. -/
def ShutterSpeed.from_u64 (n : Nat) : Option ShutterSpeed :=
  if n = 0xFFFFFFFE then
    some ShutterSpeed.bulb
  else
    some (ShutterSpeed.fraction ((n >>> 16) &&& 0xFFFF) (n &&& 0xFFFF))

/-- `ShutterSpeed::to_u64` (`state.rs` lines 156–164). -/
def ShutterSpeed.to_u64 : ShutterSpeed → Option Nat
  | .bulb => some 0xFFFFFFFE
  | .fraction numerator denominator => some ((numerator <<< 16) ||| denominator)

/-- ISO: the auto sentinel or a 16-bit value (`state.rs` lines 221–225). -/
inductive Iso where
  | auto : Iso
  | value (n : Nat) : Iso
deriving DecidableEq, Repr

/-- An `Iso` is representable when its value fits in a `u16`. -/
def Iso.wf : Iso → Prop
  | .auto => True
  | .value n => n < 65536

/-- `Iso::from_u64` (`state.rs` lines 232–238): `0x00FF_FFFF` decodes to
auto, anything else is truncated to 16 bits. -/
def Iso.from_u64 (n : Nat) : Option Iso :=
  if n = 0xFFFFFF then some Iso.auto else some (Iso.value (n &&& 0xFFFF))

/-- `Iso::to_u64` (`state.rs` lines 246–251). -/
def Iso.to_u64 : Iso → Option Nat
  | .auto => some 0xFFFFFF
  | .value n => some n

/-- Aperture: the undefined sentinel or a 16-bit value (`state.rs` lines
263–267). -/
inductive Aperture where
  | undefined : Aperture
  | value (n : Nat) : Aperture
deriving DecidableEq, Repr

/-- An `Aperture` is representable when its value fits in a `u16`. -/
def Aperture.wf : Aperture → Prop
  | .undefined => True
  | .value n => n < 65536

/-- `Aperture::from_u64` (`state.rs` lines 274–280): `0xFFFE` decodes to
undefined, anything else is truncated to 16 bits. -/
def Aperture.from_u64 (n : Nat) : Option Aperture :=
  if n = 0xFFFE then some Aperture.undefined else some (Aperture.value (n &&& 0xFFFF))

/-- `Aperture::to_u64` (`state.rs` lines 288–293). -/
def Aperture.to_u64 : Aperture → Option Nat
  | .undefined => some 0xFFFE
  | .value n => some n

end CameraState

/-! ## MAVLink link (`src/pixhawk/client.rs`)

`PixhawkClient` owns a TCP socket and a growing byte buffer.  The state
is modelled as the current buffer plus the queue of bytes the socket
will still deliver; a socket read moves up to 1024 bytes (the chunk
size used by the source) from the queue into the buffer, and a read at
end-of-stream delivers nothing, which makes the receive loop spin
forever — modelled as the `blocked` outcome. -/

namespace Mavlink

/-- A decoded MAVLink v1 message: the header fields and payload that
`mavlink::read_v1_msg` yields to the caller of `recv`. -/
structure Msg where
  sequence : Nat
  system_id : Nat
  component_id : Nat
  msgid : Nat
  payload : List Nat
deriving DecidableEq, Repr

/-- Modelled from the spec: one step of the X.25 checksum used by the
`mavlink` crate (an external dependency, not under `src/`); the spec
describes frames only as carrying "a trailing checksum".  All
intermediate values are masked to their wire widths. -/
def crc_accumulate (crc b : Nat) : Nat :=
  let tmp := (b ^^^ (crc &&& 0xFF)) &&& 0xFF
  let tmp := (tmp ^^^ ((tmp <<< 4) &&& 0xFF)) &&& 0xFF
  ((crc >>> 8) ^^^ ((tmp <<< 8) &&& 0xFFFF) ^^^ ((tmp <<< 3) &&& 0xFFFF) ^^^ (tmp >>> 4)) &&& 0xFFFF

/-- Modelled from the spec: the checksum of a byte sequence, X.25 initial
value `0xFFFF`. -/
def crc16 (bytes : List Nat) : Nat := bytes.foldl crc_accumulate 0xFFFF

/-- Outcome of `mavlink::read_v1_msg` on one frame candidate, as matched
by `recv` (`client.rs` lines 156–170): success, `InvalidChecksum`, or any
other parse error. -/
inductive ParseOutcome where
  | ok (m : Msg)
  | invalidChecksum
  | malformed
deriving DecidableEq, Repr

/-- Modelled from the spec: `mavlink::read_v1_msg` applied to the slice
`buf[magic_position .. magic_position + msg_body_size]`.  A v1 frame is
`magic (0xFE), payload length, sequence, system id, component id,
message id, payload, checksum-low, checksum-high`, with the checksum
computed over everything between the magic and the checksum itself. -/
def read_v1_msg (content : List Nat) : ParseOutcome :=
  match content with
  | magic :: len :: seq :: sys :: comp :: msgid :: rest =>
      if magic = 0xFE then
        let payload := rest.take len
        match rest.drop len with
        | [lo, hi] =>
            if payload.length = len then
              if lo + 256 * hi = crc16 (len :: seq :: sys :: comp :: msgid :: payload) then
                ParseOutcome.ok ⟨seq, sys, comp, msgid, payload⟩
              else ParseOutcome.invalidChecksum
            else ParseOutcome.malformed
        | _ => ParseOutcome.malformed
      else ParseOutcome.malformed
  | _ => ParseOutcome.malformed

/-- The link state: the internal buffer (`self.buf`) and the bytes the
socket has yet to deliver. -/
structure LinkState where
  buf : List Nat
  sock : List Nat
deriving DecidableEq, Repr

/-- Result of one call to `PixhawkClient::recv`: a decoded message with
the successor state, an eternal wait for bytes that will never come, or
a propagated non-checksum parse error. `outOfFuel` marks exhaustion of
the step budget of the executable model. -/
inductive RecvResult where
  | msg (m : Msg) (s : LinkState)
  | blocked
  | parseErr
  | outOfFuel
deriving DecidableEq, Repr

/-- `client.rs` line 141: `let msg_body_size = payload_len as usize + 8;`. -/
def msg_body_size (payload_len : Nat) : Nat := payload_len + 8

/-- One `self.sock.read` of up to 1024 bytes appended to the buffer
(`client.rs` lines 110, 125–126, 148–150). -/
def read_more (s : LinkState) : LinkState :=
  ⟨s.buf ++ s.sock.take 1024, s.sock.drop 1024⟩

/-- `PixhawkClient::recv` (`client.rs` lines 108–178).  Scan the buffer
for the first `0xFE`; if it is absent or fewer than two bytes follow it,
read more and rescan; read the declared payload length from the byte
after the magic; while the buffer does not extend strictly beyond
`magic_position + msg_body_size`, read more; then parse the candidate
slice: on success return the message with the buffer advanced past the
whole frame, on a checksum failure advance past only the magic byte and
loop, and propagate any other parse error. -/
def recvLoop : Nat → LinkState → RecvResult
  | 0, _ => RecvResult.outOfFuel
  | fuel + 1, s =>
      let pos := s.buf.findIdx (· == 0xFE)
      if pos + 2 < s.buf.length then
        let payload_len := s.buf.getD (pos + 1) 0
        let size := msg_body_size payload_len
        if s.buf.length ≤ pos + size then
          if s.sock.isEmpty then RecvResult.blocked
          else recvLoop fuel (read_more s)
        else
          match read_v1_msg ((s.buf.drop pos).take size) with
          | ParseOutcome.ok m => RecvResult.msg m ⟨s.buf.drop (pos + size), s.sock⟩
          | ParseOutcome.invalidChecksum => recvLoop fuel ⟨s.buf.drop (pos + 1), s.sock⟩
          | ParseOutcome.malformed => RecvResult.parseErr
      else
        if s.sock.isEmpty then RecvResult.blocked
        else recvLoop fuel (read_more s)

/-- The header-and-payload region of a v1 frame for `m` — everything the
checksum covers. -/
def frame_body (m : Msg) : List Nat :=
  m.payload.length :: m.sequence :: m.system_id :: m.component_id :: m.msgid :: m.payload

/-- The checksum of a well-formed frame for `m`. -/
def frame_crc (m : Msg) : Nat := crc16 (frame_body m)

/-- A wrong checksum for a frame for `m`: off by one, modulo 2^16. -/
def corrupt_crc (m : Msg) : Nat := (frame_crc m + 1) &&& 0xFFFF

/-- A well-formed wire frame for `m`: magic, body, correct checksum. -/
def mkFrame (m : Msg) : List Nat :=
  0xFE :: frame_body m ++ [frame_crc m &&& 0xFF, frame_crc m >>> 8]

/-- A frame for `m` whose stored checksum is off by one (mod 2^16): a
corrupted frame in the sense of the spec. -/
def mkCorruptFrame (m : Msg) : List Nat :=
  0xFE :: frame_body m ++ [corrupt_crc m &&& 0xFF, corrupt_crc m >>> 8]

/-- `common::MavResult` variants relevant to `send_command`
(`client.rs` lines 396–404). -/
inductive MavResult where
  | accepted
  | temporarilyRejected
  | denied
  | unsupported
  | failed
  | inProgress
  | cancelled
deriving DecidableEq, Repr

/-- An inbound message as observed by `wait_for_message`: a parameter
acknowledgement (its 16-byte id and its numeric value — the source
carries an `f32`, modelled on the integers), a command acknowledgement,
or anything else. -/
inductive Inbound where
  | paramValue (param_id : List Nat) (param_value : Int)
  | commandAck (command : Nat) (result : MavResult)
  | other
deriving DecidableEq, Repr

/-- `num_traits::cast::<f32, u8>` on an integral value: `Some` exactly in
the representable range `0..=255`, `None` outside it. -/
def cast_to_u8 (v : Int) : Option Nat :=
  if 0 ≤ v ∧ v ≤ 255 then some v.toNat else none

/-- The predicate `set_param` passes to `wait_for_message`
(`client.rs` lines 329–334): a `PARAM_VALUE` whose id equals the sent id. -/
def is_param_ack (pid : List Nat) : Inbound → Bool
  | Inbound.paramValue id _ => id == pid
  | _ => false

/-- Result of `set_param::<u8>`: the acknowledged value, a panic from
`num_traits::cast(..).unwrap()`, or the 10-second acknowledgement
timeout. -/
inductive SetParamOutcome where
  | ok (value : Nat)
  | panicked
  | timeout
deriving DecidableEq, Repr

/-- `PixhawkClient::set_param::<u8>` (`client.rs` lines 299–348) reduced
to its acknowledgement handling: wait for the first matching
`PARAM_VALUE` in the inbound stream (none ⇒ timeout), then
`num_traits::cast(data.param_value).unwrap()` — the unwrap panics when
the wire value does not fit the target type. -/
def set_param_u8 (pid : List Nat) (inbound : List Inbound) : SetParamOutcome :=
  match inbound.find? (is_param_ack pid) with
  | some (Inbound.paramValue _ v) =>
      match cast_to_u8 v with
      | some x => SetParamOutcome.ok x
      | none => SetParamOutcome.panicked
  | _ => SetParamOutcome.timeout

/-- The predicate `send_command` passes to `wait_for_message`
(`client.rs` lines 383–388): a `COMMAND_ACK` whose command equals the
sent command. -/
def is_command_ack (cmd : Nat) : Inbound → Bool
  | Inbound.commandAck c _ => c == cmd
  | _ => false

/-- Result of `send_command`: `Ok(result)`, the remote-rejection error
carrying the command and its result code, or the acknowledgement
timeout. -/
inductive SendCommandOutcome where
  | ok (result : MavResult)
  | rejected (command : Nat) (result : MavResult)
  | timeout
deriving DecidableEq, Repr

/-- `PixhawkClient::send_command` (`client.rs` lines 352–407) reduced to
its acknowledgement handling: wait for the first `COMMAND_ACK` matching
the command; `MAV_RESULT_ACCEPTED` and `MAV_RESULT_IN_PROGRESS` yield
`Ok(data.result)`, every other result code yields the error carrying it. -/
def send_command (cmd : Nat) (inbound : List Inbound) : SendCommandOutcome :=
  match inbound.find? (is_command_ack cmd) with
  | some (Inbound.commandAck _ r) =>
      if r = MavResult.accepted ∨ r = MavResult.inProgress then SendCommandOutcome.ok r
      else SendCommandOutcome.rejected cmd r
  | _ => SendCommandOutcome.timeout

end Mavlink

/-! ## Camera protocol handshake (`crates/main-camera/src/interface.rs`) -/

namespace CameraIface

/-- The device's answer to one `SDIO_GetExtDeviceInfo` request: success,
the vendor authentication-failed response `0xA101`, or any other
(transient) error. -/
inductive SdioResponse where
  | ok
  | authFailed
  | transient
deriving DecidableEq, Repr

/-- Terminal outcome of `CameraInterface::connect`: connected, the
"camera firmware is newer than version 2.00, not supported" bail-out, or
a transient error propagated after the retry budget is exhausted. -/
inductive ConnectOutcome where
  | connected
  | unsupportedFirmware
  | propagatedError
deriving DecidableEq, Repr

/-- The nested negotiation loops of `CameraInterface::connect`
(`interface.rs` lines 169–262).  `device n v` is the device's response to
the `n`-th `SDIO_GetExtDeviceInfo` request overall, issued with protocol
version `v`; the returned list logs the version of every request issued,
in order.  On `0xA101` with `version < 200` the outer loop restarts with
`version + 100` and a fresh retry counter (the phase-1/phase-2
`SDIO_Connect` commands it re-sends are modelled as succeeding); on
`0xA101` at version 200 it bails out as unsupported firmware; any other
error increments `retries` while `retries < 1000` and is propagated once
the bound is reached. -/
def connectLoop (device : Nat → Nat → SdioResponse) (version attempt retries : Nat)
    (log : List Nat) : ConnectOutcome × List Nat :=
  match device attempt version with
  | SdioResponse.ok => (ConnectOutcome.connected, log ++ [version])
  | SdioResponse.authFailed =>
      if h : version < 200 then
        connectLoop device (version + 100) (attempt + 1) 0 (log ++ [version])
      else
        (ConnectOutcome.unsupportedFirmware, log ++ [version])
  | SdioResponse.transient =>
      if h : retries < 1000 then
        connectLoop device version (attempt + 1) (retries + 1) (log ++ [version])
      else
        (ConnectOutcome.propagatedError, log ++ [version])
termination_by (200 - version, 1000 - retries)
decreasing_by
  · exact Prod.Lex.left _ _ (by omega)
  · exact Prod.Lex.right _ (by omega)

/-- `CameraInterface::connect` enters the negotiation at protocol
version 100 (`interface.rs` line 165) with fresh counters. -/
def connect (device : Nat → Nat → SdioResponse) : ConnectOutcome × List Nat :=
  connectLoop device 100 0 0 []

end CameraIface

/-! ## Verify-after-write mode helper (`src/camera/client.rs`) -/

namespace CameraArb

/-- `CameraClient::ensure_mode` (`client.rs` lines 260–296).  `update k`
is the outcome of the `k`-th `self.iface.update()` poll: a device error,
or the observed `OperatingMode` current value (`some v` when present as
a `UINT8`, `none` otherwise).  The loop runs while `retries < 10`: poll;
if the observed value equals the requested mode, break out returning
`Ok`; otherwise issue one `set(OperatingMode, mode)` write, back off one
second, and increment `retries`.  Falling out of the loop also returns
`Ok`.  The returned payload counts the `set` writes issued, the
observable effect of the call. -/
def ensure_mode_loop {e : Type} (update : Nat → Except e (Option Nat)) (mode : Nat)
    (retries sets : Nat) : Except e Nat :=
  if h : retries < 10 then
    match update retries with
    | Except.error err => Except.error err
    | Except.ok current =>
        if current = some mode then Except.ok sets
        else ensure_mode_loop update mode (retries + 1) (sets + 1)
  else Except.ok sets
termination_by 10 - retries

/-- `ensure_mode` starts with both counters at zero. -/
def ensure_mode {e : Type} (update : Nat → Except e (Option Nat)) (mode : Nat) :
    Except e Nat :=
  ensure_mode_loop update mode 0 0

end CameraArb

/-! ## Command-bus reply primitive (`src/main.rs`) -/

namespace Bus

/-- A `Command`: an opaque request paired with its single-use reply
channel, whose only observable state here is whether the original caller
has dropped the receiving end (`oneshot::Sender::is_canceled`). -/
structure Command where
  request : Nat
  receiver_dropped : Bool
deriving DecidableEq, Repr

/-- What `Command::respond` does: deliver the result, or terminate the
process. -/
inductive RespondOutcome where
  | panicked
  | delivered
deriving DecidableEq, Repr

/-- `Command::respond` (`main.rs` lines 97–106): it checks
`chan.is_canceled()` and panics with the message "chan is closed" when
the receiver is gone; only otherwise does it send the result. -/
def Command.respond (c : Command) : RespondOutcome :=
  if c.receiver_dropped then RespondOutcome.panicked else RespondOutcome.delivered

end Bus

/-! ## Continuous-capture interval validation (`src/camera/client/command.rs`) -/

namespace CamCmd

/-- The PTP data value forwarded to the device layer. -/
inductive PtpData where
  | uint16 (v : Nat)
deriving DecidableEq, Repr

/-- What the `Interval` arm of `cmd_continuous_capture` does: bail with
one of its three error messages before touching the device, or forward
the value to `ensure(interface, CameraPropertyCode::IntervalTime, ...)`. -/
inductive CCAction where
  | errorMinimum
  | errorMaximum
  | errorIncrement
  | ensureIntervalTime (value : PtpData)
deriving DecidableEq, Repr

/-- Whether the action is one of the three bail-outs. -/
def CCAction.isError : CCAction → Bool
  | CCAction.errorMinimum => true
  | CCAction.errorMaximum => true
  | CCAction.errorIncrement => true
  | CCAction.ensureIntervalTime _ => false

/-- The `Interval { interval }` arm of `cmd_continuous_capture`
(`command.rs` lines 147–169).  The `f32` argument has already been
scaled by ten and truncated to a `u16` (`let interval = (interval * 10.)
as u16;`); `interval` here is that scaled value.  Below 10 (under one
second), above 300 (over thirty seconds), or not a multiple of 5 (not a
half-second increment) each bail immediately; otherwise the value is
forwarded to the verify-after-write `ensure` of `IntervalTime` as
`UINT16(interval)`. -/
def cmd_continuous_capture_interval (interval : Nat) : CCAction :=
  if interval < 10 then CCAction.errorMinimum
  else if interval > 300 then CCAction.errorMaximum
  else if interval % 5 ≠ 0 then CCAction.errorIncrement
  else CCAction.ensureIntervalTime (PtpData.uint16 interval)

end CamCmd

namespace CameraState

/-! ### Bit-field extraction lemmas for the shutter-speed packing -/

theorem or_div_pow (a b k : Nat) : (a ||| b) / 2 ^ k = a / 2 ^ k ||| b / 2 ^ k := by
  induction k with
  | zero => simp
  | succ k ih =>
      rw [pow_succ, ← Nat.div_div_eq_div_mul, ← Nat.div_div_eq_div_mul,
        ← Nat.div_div_eq_div_mul, ih, Nat.or_div_two]

theorem shift_or_extract_high (num den : Nat) (hn : num < 65536) (hd : den < 65536) :
    (((num <<< 16) ||| den) >>> 16) &&& 0xFFFF = num := by
  have hmask : (0xFFFF : Nat) = 2 ^ 16 - 1 := by norm_num
  have h16 : (2 : Nat) ^ 16 = 65536 := by norm_num
  rw [Nat.shiftRight_eq_div_pow, or_div_pow, Nat.shiftLeft_eq, h16,
    Nat.mul_div_cancel _ (by norm_num : (0:Nat) < 65536), Nat.div_eq_of_lt hd,
    Nat.or_zero, hmask, Nat.and_pow_two_sub_one_eq_mod, h16, Nat.mod_eq_of_lt hn]

theorem shift_or_extract_low (num den : Nat) (hd : den < 65536) :
    ((num <<< 16) ||| den) &&& 0xFFFF = den := by
  have hmask : (0xFFFF : Nat) = 2 ^ 16 - 1 := by norm_num
  have h16 : (2 : Nat) ^ 16 = 65536 := by norm_num
  rw [Nat.and_distrib_right, hmask, Nat.and_pow_two_sub_one_eq_mod,
    Nat.and_pow_two_sub_one_eq_mod, Nat.shiftLeft_eq, h16, Nat.mul_mod_left,
    Nat.mod_eq_of_lt hd, Nat.zero_or]

theorem shift_or_ne_sentinel (num den : Nat) (hn : num < 65536) (hd : den < 65536)
    (h : ¬(num = 0xFFFF ∧ den = 0xFFFE)) : (num <<< 16) ||| den ≠ 0xFFFFFFFE := by
  intro he
  have h1 := shift_or_extract_high num den hn hd
  have h2 := shift_or_extract_low num den hd
  rw [he] at h1 h2
  have e1 : ((0xFFFFFFFE : Nat) >>> 16) &&& 0xFFFF = 0xFFFF := by decide
  have e2 : (0xFFFFFFFE : Nat) &&& 0xFFFF = 0xFFFE := by decide
  exact h ⟨by rw [← h1, e1], by rw [← h2, e2]⟩

theorem shutterSpeed_roundtrip (v : ShutterSpeed) (hwf : v.wf)
    (hne : v ≠ ShutterSpeed.fraction 0xFFFF 0xFFFE) :
    (ShutterSpeed.to_u64 v).bind ShutterSpeed.from_u64 = some v := by
  cases v with
  | bulb => rfl
  | fraction num den =>
      obtain ⟨hn, hd⟩ := hwf
      have hne' : ¬(num = 0xFFFF ∧ den = 0xFFFE) := by
        rintro ⟨rfl, rfl⟩
        exact hne rfl
      simp only [ShutterSpeed.to_u64, ShutterSpeed.from_u64, Option.some_bind]
      rw [if_neg (shift_or_ne_sentinel num den hn hd hne'),
        shift_or_extract_high num den hn hd, shift_or_extract_low num den hd]

theorem iso_roundtrip (v : Iso) (hwf : v.wf) :
    (Iso.to_u64 v).bind Iso.from_u64 = some v := by
  cases v with
  | auto => rfl
  | value n =>
      have hn : n < 65536 := hwf
      have h16 : (2 : Nat) ^ 16 = 65536 := by norm_num
      simp only [Iso.to_u64, Iso.from_u64, Option.some_bind]
      rw [if_neg (by omega : ¬ n = 0xFFFFFF),
        (by norm_num : (0xFFFF : Nat) = 2 ^ 16 - 1), Nat.and_pow_two_sub_one_eq_mod,
        h16, Nat.mod_eq_of_lt hn]

theorem aperture_roundtrip (v : Aperture) (hwf : v.wf)
    (hne : v ≠ Aperture.value 0xFFFE) :
    (Aperture.to_u64 v).bind Aperture.from_u64 = some v := by
  cases v with
  | undefined => rfl
  | value n =>
      have hn : n < 65536 := hwf
      have h16 : (2 : Nat) ^ 16 = 65536 := by norm_num
      have hne' : ¬ n = 0xFFFE := by
        intro h
        exact hne (by rw [h])
      simp only [Aperture.to_u64, Aperture.from_u64, Option.some_bind]
      rw [if_neg hne', (by norm_num : (0xFFFF : Nat) = 2 ^ 16 - 1),
        Nat.and_pow_two_sub_one_eq_mod, h16, Nat.mod_eq_of_lt hn]

theorem decode_total (n : Nat) :
    (ShutterSpeed.from_u64 n).isSome ∧ (Iso.from_u64 n).isSome ∧
      (Aperture.from_u64 n).isSome := by
  refine ⟨?_, ?_, ?_⟩ <;>
    simp only [ShutterSpeed.from_u64, Iso.from_u64, Aperture.from_u64] <;>
    split <;> rfl

end CameraState


/-- Claim C1, counterexample: the claim asserts `from_u64(to_u64(v)) == Some(v)`
for every representable value.  The representable shutter speed
`Fraction { numerator: 0xFFFF, denominator: 0xFFFE }` encodes to the wire
value `0xFFFF_FFFE`, which is exactly the bulb sentinel, so it decodes back
to `Bulb`, not to the original fraction.  (`Aperture::Value(0xFFFE)` fails
the same way against the undefined sentinel.) -/
theorem C1_roundtrip_counterexample :
    (CameraState.ShutterSpeed.fraction 0xFFFF 0xFFFE).wf ∧
      (CameraState.ShutterSpeed.to_u64
          (CameraState.ShutterSpeed.fraction 0xFFFF 0xFFFE)).bind
          CameraState.ShutterSpeed.from_u64
        = some CameraState.ShutterSpeed.bulb ∧
      (CameraState.Aperture.value 0xFFFE).wf ∧
      (CameraState.Aperture.to_u64 (CameraState.Aperture.value 0xFFFE)).bind
          CameraState.Aperture.from_u64
        = some CameraState.Aperture.undefined := by
  refine ⟨by norm_num [CameraState.ShutterSpeed.wf], by decide,
    by norm_num [CameraState.Aperture.wf], by decide⟩

/-- Claim C1, amended: `from_u64(to_u64(v)) == Some(v)` holds for every
representable `ShutterSpeed`, `Iso` and `Aperture` value **except** the two
values whose encodings collide with a sentinel — the shutter speed
`Fraction { numerator: 0xFFFF, denominator: 0xFFFE }` (collides with the
bulb sentinel `0xFFFF_FFFE`) and `Aperture::Value(0xFFFE)` (collides with
the undefined sentinel `0xFFFE`); `Iso` round-trips without exception.
Decoding any 64-bit input, the sentinels included, is total and never
panics: all three `from_u64` functions return `Some` on every input. -/
theorem C1_roundtrip_amended :
    (∀ v : CameraState.ShutterSpeed, v.wf →
        v ≠ CameraState.ShutterSpeed.fraction 0xFFFF 0xFFFE →
        (CameraState.ShutterSpeed.to_u64 v).bind CameraState.ShutterSpeed.from_u64
          = some v) ∧
      (∀ v : CameraState.Iso, v.wf →
        (CameraState.Iso.to_u64 v).bind CameraState.Iso.from_u64 = some v) ∧
      (∀ v : CameraState.Aperture, v.wf → v ≠ CameraState.Aperture.value 0xFFFE →
        (CameraState.Aperture.to_u64 v).bind CameraState.Aperture.from_u64
          = some v) ∧
      (∀ n : Nat, (CameraState.ShutterSpeed.from_u64 n).isSome ∧
        (CameraState.Iso.from_u64 n).isSome ∧
        (CameraState.Aperture.from_u64 n).isSome) :=
  ⟨CameraState.shutterSpeed_roundtrip, CameraState.iso_roundtrip,
    CameraState.aperture_roundtrip, CameraState.decode_total⟩

/-- Claim C1, witness: the amended round-trip theorem applied at the concrete
values `1/500` shutter speed, ISO 800, aperture F4.0 (wire 400), and the
bulb/auto/undefined sentinels as raw decode inputs. -/
theorem C1_roundtrip_amended_witness :
    (CameraState.ShutterSpeed.to_u64
        (CameraState.ShutterSpeed.fraction 1 500)).bind
        CameraState.ShutterSpeed.from_u64
      = some (CameraState.ShutterSpeed.fraction 1 500) ∧
      (CameraState.Iso.to_u64 (CameraState.Iso.value 800)).bind
          CameraState.Iso.from_u64
        = some (CameraState.Iso.value 800) ∧
      (CameraState.Aperture.to_u64 (CameraState.Aperture.value 400)).bind
          CameraState.Aperture.from_u64
        = some (CameraState.Aperture.value 400) ∧
      (CameraState.ShutterSpeed.from_u64 0xFFFFFFFE).isSome ∧
      (CameraState.Iso.from_u64 0xFFFFFF).isSome ∧
      (CameraState.Aperture.from_u64 0xFFFE).isSome :=
  ⟨C1_roundtrip_amended.1 _ (by norm_num [CameraState.ShutterSpeed.wf]) (by decide),
    C1_roundtrip_amended.2.1 _ (by norm_num [CameraState.Iso.wf]),
    C1_roundtrip_amended.2.2.1 _ (by norm_num [CameraState.Aperture.wf]) (by decide),
    (C1_roundtrip_amended.2.2.2 0xFFFFFFFE).1,
    (C1_roundtrip_amended.2.2.2 0xFFFFFF).2.1,
    (C1_roundtrip_amended.2.2.2 0xFFFE).2.2⟩


/-! ## Claims about the command bus, the handshake and the arbitrator -/

/-- Claim C4: the claim states that when the original caller has dropped
its reply channel before the reply is sent, `Command::respond` silently
discards the result without crashing.  The code does the opposite: it
checks `chan.is_canceled()` and panics with "chan is closed".  This
theorem evaluates the embedded `respond` at a command whose receiver has
been dropped (the failing input) and at one whose receiver is live. -/
theorem C4_respond_panics_on_abandoned_channel :
    Bus.Command.respond ⟨0, true⟩ = Bus.RespondOutcome.panicked ∧
      Bus.Command.respond ⟨0, false⟩ = Bus.RespondOutcome.delivered :=
  ⟨rfl, rfl⟩

/-- Claim C8: the claim states that no inbound message contents can make
`set_param` terminate the process.  But `set_param` runs
`num_traits::cast(data.param_value).unwrap()` on the acknowledged
parameter value from the wire; for `set_param::<u8>` an acknowledged
value of 300 makes the cast return `None` and the unwrap panic.  This
theorem evaluates the embedded `set_param::<u8>` on the 16-byte id of
`CAM_FEEDBACK_PIN` with an acknowledgement carrying 300 (panic) and with
one carrying 54 (normal success), and shows `send_command` handles an
arbitrary result code without panicking. -/
theorem C8_set_param_unwrap_panics :
    Mavlink.set_param_u8
        [67, 65, 77, 95, 70, 69, 69, 68, 66, 65, 67, 75, 95, 80, 73, 78]
        [Mavlink.Inbound.other,
          Mavlink.Inbound.paramValue
            [67, 65, 77, 95, 70, 69, 69, 68, 66, 65, 67, 75, 95, 80, 73, 78] 300]
      = Mavlink.SetParamOutcome.panicked ∧
      Mavlink.set_param_u8
          [67, 65, 77, 95, 70, 69, 69, 68, 66, 65, 67, 75, 95, 80, 73, 78]
          [Mavlink.Inbound.paramValue
            [67, 65, 77, 95, 70, 69, 69, 68, 66, 65, 67, 75, 95, 80, 73, 78] 54]
        = Mavlink.SetParamOutcome.ok 54 := by
  refine ⟨by decide, by decide⟩

/-- Claim C10: for every (already ten-scaled) interval argument, the
`Interval` arm bails out — performing no device operation — exactly when
the value is below 10, above 300, or not a multiple of 5, and otherwise
forwards `UINT16(interval)` to the `ensure` of `IntervalTime`. -/
theorem C10_interval_validation (interval : Nat) :
    (CamCmd.CCAction.isError (CamCmd.cmd_continuous_capture_interval interval) = true
      ↔ (interval < 10 ∨ 300 < interval ∨ interval % 5 ≠ 0)) ∧
      (10 ≤ interval → interval ≤ 300 → interval % 5 = 0 →
        CamCmd.cmd_continuous_capture_interval interval
          = CamCmd.CCAction.ensureIntervalTime (CamCmd.PtpData.uint16 interval)) := by
  constructor
  · unfold CamCmd.cmd_continuous_capture_interval
    split_ifs with h1 h2 h3 <;> simp [CamCmd.CCAction.isError] <;> omega
  · intro h1 h2 h3
    unfold CamCmd.cmd_continuous_capture_interval
    rw [if_neg (by omega), if_neg (by omega), if_neg (by simp [h3])]

/-- Claim C10, witness: the validation applied at the in-range value 15
(1.5 seconds) and, via the error characterisation, at the too-short
value 7. -/
theorem C10_interval_validation_witness :
    CamCmd.cmd_continuous_capture_interval 15
        = CamCmd.CCAction.ensureIntervalTime (CamCmd.PtpData.uint16 15) ∧
      CamCmd.CCAction.isError (CamCmd.cmd_continuous_capture_interval 7) = true :=
  ⟨(C10_interval_validation 15).2 (by norm_num) (by norm_num) (by norm_num),
    (C10_interval_validation 7).1.mpr (by norm_num)⟩

namespace CameraIface

theorem connectLoop_always_transient (device : Nat → Nat → SdioResponse) :
    ∀ m retries attempt log, retries + m = 1000 →
      (∀ n, device n 100 = SdioResponse.transient) →
      connectLoop device 100 attempt retries log
        = (ConnectOutcome.propagatedError, log ++ List.replicate (m + 1) 100) := by
  intro m
  induction m with
  | zero =>
      intro retries attempt log hm h
      have hr : ¬ retries < 1000 := by omega
      rw [connectLoop]
      simp [h, hr]
  | succ m ih =>
      intro retries attempt log hm h
      have hr : retries < 1000 := by omega
      rw [connectLoop]
      simp only [h, dif_pos hr]
      rw [ih (retries + 1) (attempt + 1) (log ++ [100]) (by omega) h]
      simp [List.replicate_succ]

end CameraIface

/-- Claim C6: against a device that answers every extended-device-info
request with the authentication-failed response `0xA101`, `connect()`
issues exactly two requests, at protocol versions 100 and then 200
(incrementing by 100 after the first failure), and terminates with the
unsupported-firmware error; the version log shows it never attempts a
version above 200, and the loop is a terminating total function, so it
cannot hang. -/
theorem C6_connect_capped_unsupported (device : Nat → Nat → CameraIface.SdioResponse)
    (h : ∀ n v, device n v = CameraIface.SdioResponse.authFailed) :
    CameraIface.connect device
      = (CameraIface.ConnectOutcome.unsupportedFirmware, [100, 200]) := by
  rw [CameraIface.connect, CameraIface.connectLoop]
  simp only [h, dif_pos (by norm_num : (100:Nat) < 200)]
  rw [CameraIface.connectLoop]
  simp [h]

/-- Claim C6, witness: the theorem applied to the constant
authentication-failed device. -/
theorem C6_connect_capped_unsupported_witness :
    CameraIface.connect (fun _ _ => CameraIface.SdioResponse.authFailed)
      = (CameraIface.ConnectOutcome.unsupportedFirmware, [100, 200]) :=
  C6_connect_capped_unsupported _ (fun _ _ => rfl)

/-- Claim C7: during version negotiation, an error other than
authentication-failed is retried up to 1000 times before being
propagated — a device that always fails transiently at version 100
receives exactly 1001 requests (the first attempt plus 1000 retries)
and then the error propagates; and a device that fails transiently on
the first two attempts and succeeds on the third makes `connect()`
succeed having issued exactly 3 requests. -/
theorem C7_connect_transient_retry (device : Nat → Nat → CameraIface.SdioResponse)
    (htrans : ∀ n, device n 100 = CameraIface.SdioResponse.transient) :
    ∀ device2 : Nat → Nat → CameraIface.SdioResponse,
      device2 0 100 = CameraIface.SdioResponse.transient →
      device2 1 100 = CameraIface.SdioResponse.transient →
      device2 2 100 = CameraIface.SdioResponse.ok →
      CameraIface.connect device
          = (CameraIface.ConnectOutcome.propagatedError, List.replicate 1001 100) ∧
        CameraIface.connect device2
          = (CameraIface.ConnectOutcome.connected, [100, 100, 100]) := by
  intro device2 h0 h1 h2
  constructor
  · rw [CameraIface.connect,
      CameraIface.connectLoop_always_transient device 1000 0 0 [] (by omega) htrans]
    rfl
  · rw [CameraIface.connect, CameraIface.connectLoop]
    simp only [h0, dif_pos (by norm_num : (0:Nat) < 1000)]
    rw [CameraIface.connectLoop]
    simp only [h1, dif_pos (by norm_num : (1:Nat) < 1000)]
    rw [CameraIface.connectLoop]
    simp [h2]

/-- Claim C7, witness: the retry theorem applied to the constant
transient device and to the succeeds-on-attempt-3 device. -/
theorem C7_connect_transient_retry_witness :
    CameraIface.connect (fun _ _ => CameraIface.SdioResponse.transient)
        = (CameraIface.ConnectOutcome.propagatedError, List.replicate 1001 100) ∧
      CameraIface.connect
          (fun n _ => if n < 2 then CameraIface.SdioResponse.transient
            else CameraIface.SdioResponse.ok)
        = (CameraIface.ConnectOutcome.connected, [100, 100, 100]) :=
  C7_connect_transient_retry _ (fun _ => rfl) _ rfl rfl rfl

namespace CameraArb

theorem ensure_mode_loop_exhaust {e : Type} (update : Nat → Except e (Option Nat))
    (mode : Nat) :
    ∀ m retries sets, 10 - retries = m →
      (∀ k, retries ≤ k → k < 10 → ∃ c, update k = Except.ok c ∧ c ≠ some mode) →
      ensure_mode_loop update mode retries sets = Except.ok (sets + m) := by
  intro m
  induction m with
  | zero =>
      intro retries sets hm h
      have hr : ¬ retries < 10 := by omega
      rw [ensure_mode_loop, dif_neg hr]
      simp
  | succ m ih =>
      intro retries sets hm h
      have hr : retries < 10 := by omega
      obtain ⟨c, hc, hne⟩ := h retries le_rfl hr
      rw [ensure_mode_loop, dif_pos hr]
      simp only [hc, if_neg hne]
      rw [ih (retries + 1) (sets + 1) (by omega) (fun k hk1 hk2 => h k (by omega) hk2)]
      congr 1
      omega

theorem ensure_mode_loop_hits {e : Type} (update : Nat → Except e (Option Nat))
    (mode : Nat) :
    ∀ m retries sets j, j - retries = m → retries ≤ j → j < 10 →
      (∀ k, retries ≤ k → k < j → ∃ c, update k = Except.ok c ∧ c ≠ some mode) →
      update j = Except.ok (some mode) →
      ensure_mode_loop update mode retries sets = Except.ok (sets + m) := by
  intro m
  induction m with
  | zero =>
      intro retries sets j hm hrj hj10 hmiss hj
      have hje : j = retries := by omega
      subst hje
      rw [ensure_mode_loop, dif_pos (by omega), hj]
      simp
  | succ m ih =>
      intro retries sets j hm hrj hj10 hmiss hj
      have hr : retries < 10 := by omega
      obtain ⟨c, hc, hne⟩ := hmiss retries le_rfl (by omega)
      rw [ensure_mode_loop, dif_pos hr]
      simp only [hc, if_neg hne]
      rw [ih (retries + 1) (sets + 1) j (by omega) (by omega) hj10
        (fun k hk1 hk2 => hmiss k (by omega) hk2) hj]
      congr 1
      omega

end CameraArb

/-- Claim C5, counterexample: the claim states that `ensure_mode` fails
(returns an error) after its retry bound of 10 is exhausted if the
device never reflects the requested mode.  Against a device that always
reports operating mode 1 while mode 4 (`ContentsTransfer`) is requested,
the embedded `ensure_mode` exhausts its 10 retries and still returns
`Ok` — with 10 write attempts issued and no error. -/
theorem C5_ensure_mode_counterexample :
    CameraArb.ensure_mode
        (fun _ => (Except.ok (some 1) : Except Unit (Option Nat))) 4
      = Except.ok 10 := by
  rw [CameraArb.ensure_mode,
    CameraArb.ensure_mode_loop_exhaust _ 4 10 0 0 (by omega)
      (fun k _ _ => ⟨some 1, rfl, by decide⟩)]

/-- Claim C5, amended: `ensure_mode(mode)` polls the `OperatingMode`
property and rewrites it with a 1-second backoff, bounded by 10
retries.  It returns success as soon as a poll observes the requested
mode — after `j` failed polls it succeeds having issued exactly `j`
writes — but when the device never reflects the requested mode it does
**not** fail: after the 10th retry the loop simply exits and the
function still returns `Ok(())` (having issued 10 writes).  Errors are
propagated only from the device I/O itself, never from retry
exhaustion. -/
theorem C5_ensure_mode_amended {e : Type} (update : Nat → Except e (Option Nat))
    (mode : Nat) :
    ((∀ k, k < 10 → ∃ c, update k = Except.ok c ∧ c ≠ some mode) →
        CameraArb.ensure_mode update mode = Except.ok 10) ∧
      (∀ j, j < 10 →
        (∀ k, k < j → ∃ c, update k = Except.ok c ∧ c ≠ some mode) →
        update j = Except.ok (some mode) →
        CameraArb.ensure_mode update mode = Except.ok j) := by
  constructor
  · intro h
    rw [CameraArb.ensure_mode,
      CameraArb.ensure_mode_loop_exhaust update mode 10 0 0 (by omega)
        (fun k _ hk => h k hk)]
  · intro j hj hmiss hhit
    rw [CameraArb.ensure_mode,
      CameraArb.ensure_mode_loop_hits update mode j 0 0 j (by omega) (by omega) hj
        (fun k _ hk => hmiss k hk) hhit]
    simp

/-- Claim C5, witness: the amended theorem applied to a device that
reflects the requested mode only from the third poll on (success on
poll index 2 with exactly 2 writes issued) and to a device that never
reflects it (success with 10 writes issued). -/
theorem C5_ensure_mode_amended_witness :
    CameraArb.ensure_mode
        (fun k => (Except.ok (if k < 2 then some 1 else some 4)
          : Except Unit (Option Nat))) 4
      = Except.ok 2 ∧
      CameraArb.ensure_mode
          (fun _ => (Except.ok (some 1) : Except Unit (Option Nat))) 4
        = Except.ok 10 :=
  ⟨(C5_ensure_mode_amended _ 4).2 2 (by omega)
      (fun k hk => ⟨some 1, by simp [hk], by decide⟩) (by simp),
    (C5_ensure_mode_amended _ 4).1 (fun k _ => ⟨some 1, rfl, by decide⟩)⟩

namespace Mavlink

theorem find?_append_of_all_false {a : Type} (p : a → Bool) :
    ∀ (pre rest : List a), (∀ x ∈ pre, p x = false) →
      (pre ++ rest).find? p = rest.find? p := by
  intro pre rest h
  induction pre with
  | nil => rfl
  | cons x l ih =>
      rw [List.cons_append, List.find?_cons_of_neg _ (by simp [h x (by simp)])]
      exact ih (fun y hy => h y (by simp [hy]))

end Mavlink

/-- Claim C9: `send_command` waits for the first `COMMAND_ACK` whose
command id matches the sent command (skipping any earlier inbound
messages that do not match); when the acknowledged result code is
`MAV_RESULT_ACCEPTED` or `MAV_RESULT_IN_PROGRESS` it returns `Ok` with
that result code, and for every other result code it returns the
rejection error carrying that result code. -/
theorem C9_send_command_result (cmd : Nat) (pre post : List Mavlink.Inbound)
    (r : Mavlink.MavResult)
    (hpre : ∀ x ∈ pre, Mavlink.is_command_ack cmd x = false) :
    Mavlink.send_command cmd (pre ++ Mavlink.Inbound.commandAck cmd r :: post)
      = if r = Mavlink.MavResult.accepted ∨ r = Mavlink.MavResult.inProgress
        then Mavlink.SendCommandOutcome.ok r
        else Mavlink.SendCommandOutcome.rejected cmd r := by
  unfold Mavlink.send_command
  rw [Mavlink.find?_append_of_all_false _ pre _ hpre,
    List.find?_cons_of_pos _ (by simp [Mavlink.is_command_ack])]

/-- Claim C9, witness: `send_command` applied to an inbound stream whose
matching acknowledgement carries `MAV_RESULT_DENIED` (after one
non-matching message), and to one whose acknowledgement carries
`MAV_RESULT_ACCEPTED`. -/
theorem C9_send_command_result_witness :
    Mavlink.send_command 203
        ([Mavlink.Inbound.other]
          ++ Mavlink.Inbound.commandAck 203 Mavlink.MavResult.denied :: [])
      = Mavlink.SendCommandOutcome.rejected 203 Mavlink.MavResult.denied ∧
      Mavlink.send_command 203
          ([] ++ Mavlink.Inbound.commandAck 203 Mavlink.MavResult.accepted :: [])
        = Mavlink.SendCommandOutcome.ok Mavlink.MavResult.accepted := by
  constructor
  · rw [C9_send_command_result 203 [Mavlink.Inbound.other] [] Mavlink.MavResult.denied
      (by decide)]
    decide
  · rw [C9_send_command_result 203 [] [] Mavlink.MavResult.accepted (by decide)]
    decide

namespace Mavlink

/-! ### Frame-level lemmas -/

theorem low_high_recompose (x : Nat) : (x &&& 0xFF) + 256 * (x >>> 8) = x := by
  have h8 : (2 : Nat) ^ 8 = 256 := by norm_num
  rw [(by norm_num : (0xFF : Nat) = 2 ^ 8 - 1), Nat.and_pow_two_sub_one_eq_mod,
    Nat.shiftRight_eq_div_pow, h8, Nat.mod_add_div]

theorem crc_accumulate_lt (crc b : Nat) : crc_accumulate crc b < 65536 := by
  unfold crc_accumulate
  exact lt_of_le_of_lt Nat.and_le_right (by norm_num)

theorem crc16_lt (bytes : List Nat) : crc16 bytes < 65536 := by
  have key : ∀ (l : List Nat) (init : Nat), init < 65536 →
      List.foldl crc_accumulate init l < 65536 := by
    intro l
    induction l with
    | nil => intro init h; simpa using h
    | cons a l ih =>
        intro init h
        rw [List.foldl_cons]
        exact ih _ (crc_accumulate_lt init a)
  exact key bytes 0xFFFF (by norm_num)

theorem frame_body_length (m : Msg) : (frame_body m).length = m.payload.length + 5 := by
  simp [frame_body]

theorem mkFrame_length (m : Msg) :
    (mkFrame m).length = msg_body_size m.payload.length := by
  simp [mkFrame, frame_body, msg_body_size]

theorem mkCorruptFrame_length (m : Msg) :
    (mkCorruptFrame m).length = msg_body_size m.payload.length := by
  simp [mkCorruptFrame, frame_body, msg_body_size]

theorem read_v1_msg_mkFrame (m : Msg) : read_v1_msg (mkFrame m) = ParseOutcome.ok m := by
  simp [mkFrame, frame_body, read_v1_msg, List.take_left, List.drop_left,
    low_high_recompose, frame_crc]

theorem read_v1_msg_mkCorruptFrame (m : Msg) :
    read_v1_msg (mkCorruptFrame m) = ParseOutcome.invalidChecksum := by
  have hne : (corrupt_crc m &&& 0xFF) + 256 * (corrupt_crc m >>> 8)
      ≠ crc16 (frame_body m) := by
    rw [low_high_recompose]
    unfold corrupt_crc frame_crc
    have h := crc16_lt (frame_body m)
    rw [(by norm_num : (0xFFFF : Nat) = 2 ^ 16 - 1), Nat.and_pow_two_sub_one_eq_mod,
      (by norm_num : (2 : Nat) ^ 16 = 65536)]
    omega
  simp [mkCorruptFrame, frame_body, read_v1_msg, List.take_left, List.drop_left]
  intro h
  exact absurd (by simpa [frame_body] using h) hne

end Mavlink

namespace Mavlink

/-! ### Buffer-scan lemmas -/

theorem findIdx_append_all_ne (junk rest : List Nat) (h : ∀ b ∈ junk, ¬ b = 0xFE) :
    (junk ++ rest).findIdx (· == 0xFE) = junk.length + rest.findIdx (· == 0xFE) := by
  induction junk with
  | nil => simp
  | cons a l ih =>
      rw [List.cons_append, List.findIdx_cons]
      have ha : (a == 0xFE) = false := beq_eq_false_iff_ne.mpr (h a (by simp))
      rw [ha]
      simp only [cond_false]
      rw [ih (fun b hb => h b (by simp [hb]))]
      simp [List.length_cons]
      omega

theorem findIdx_mkFrame_head (m : Msg) (rest : List Nat) :
    (mkFrame m ++ rest).findIdx (· == 0xFE) = 0 := by
  simp [mkFrame, List.findIdx_cons]

theorem findIdx_mkCorruptFrame_head (m : Msg) (rest : List Nat) :
    (mkCorruptFrame m ++ rest).findIdx (· == 0xFE) = 0 := by
  simp [mkCorruptFrame, List.findIdx_cons]

theorem getD_mkFrame_one (m : Msg) (rest : List Nat) :
    (mkFrame m ++ rest).getD 1 0 = m.payload.length := by
  simp [mkFrame, frame_body, List.getD]

theorem getD_mkCorruptFrame_one (m : Msg) (rest : List Nat) :
    (mkCorruptFrame m ++ rest).getD 1 0 = m.payload.length := by
  simp [mkCorruptFrame, frame_body, List.getD]

theorem getD_append_right_one (junk rest : List Nat) :
    (junk ++ rest).getD (junk.length + 1) 0 = rest.getD 1 0 := by
  rw [List.getD_eq_getElem?_getD, List.getD_eq_getElem?_getD,
    List.getElem?_append_right (by omega)]
  have he : junk.length + 1 - junk.length = 1 := by omega
  rw [he]

/-! ### One-iteration characterisations of `recv` -/

theorem recv_step_ok (fuel : Nat) (s : LinkState) (m : Msg) (pos plen : Nat)
    (hpos : s.buf.findIdx (· == 0xFE) = pos)
    (hplen : s.buf.getD (pos + 1) 0 = plen)
    (h1 : pos + 2 < s.buf.length)
    (h2 : pos + msg_body_size plen < s.buf.length)
    (h3 : read_v1_msg ((s.buf.drop pos).take (msg_body_size plen)) = ParseOutcome.ok m) :
    recvLoop (fuel + 1) s
      = RecvResult.msg m ⟨s.buf.drop (pos + msg_body_size plen), s.sock⟩ := by
  rw [recvLoop]
  simp only [hpos, hplen, if_pos h1, if_neg (by omega : ¬ s.buf.length ≤ pos + msg_body_size plen), h3]

theorem recv_step_badcrc (fuel : Nat) (s : LinkState) (pos plen : Nat)
    (hpos : s.buf.findIdx (· == 0xFE) = pos)
    (hplen : s.buf.getD (pos + 1) 0 = plen)
    (h1 : pos + 2 < s.buf.length)
    (h2 : pos + msg_body_size plen < s.buf.length)
    (h3 : read_v1_msg ((s.buf.drop pos).take (msg_body_size plen))
      = ParseOutcome.invalidChecksum) :
    recvLoop (fuel + 1) s = recvLoop fuel ⟨s.buf.drop (pos + 1), s.sock⟩ := by
  rw [recvLoop]
  simp only [hpos, hplen, if_pos h1, if_neg (by omega : ¬ s.buf.length ≤ pos + msg_body_size plen), h3]

theorem recv_step_scan_read (fuel : Nat) (s : LinkState)
    (h : ¬ s.buf.findIdx (· == 0xFE) + 2 < s.buf.length) (hsock : s.sock ≠ []) :
    recvLoop (fuel + 1) s = recvLoop fuel (read_more s) := by
  rw [recvLoop]
  simp only [if_neg h, List.isEmpty_iff, if_neg hsock]

theorem recv_step_frame_blocked (fuel : Nat) (s : LinkState) (pos plen : Nat)
    (hpos : s.buf.findIdx (· == 0xFE) = pos)
    (hplen : s.buf.getD (pos + 1) 0 = plen)
    (h1 : pos + 2 < s.buf.length)
    (h2 : s.buf.length ≤ pos + msg_body_size plen)
    (hsock : s.sock = []) :
    recvLoop (fuel + 1) s = RecvResult.blocked := by
  rw [recvLoop]
  simp only [hpos, hplen, if_pos h1, if_pos h2, hsock, List.isEmpty_nil, if_true]

end Mavlink

namespace Mavlink

/-! ### Running `recv` over whole frames -/

theorem recv_frame_after_junk (fuel : Nat) (junk : List Nat) (m : Msg)
    (rest sock : List Nat) (hjunk : ∀ b ∈ junk, ¬ b = 0xFE) (hrest : rest ≠ []) :
    recvLoop (fuel + 1) ⟨junk ++ (mkFrame m ++ rest), sock⟩
      = RecvResult.msg m ⟨rest, sock⟩ := by
  have hrl : 0 < rest.length := List.length_pos.mpr hrest
  have hfl := mkFrame_length m
  have hstate : (junk ++ (mkFrame m ++ rest)).drop
      (junk.length + msg_body_size m.payload.length) = rest := by
    rw [← List.append_assoc, ← hfl, ← List.length_append, List.drop_left]
  have := recv_step_ok fuel ⟨junk ++ (mkFrame m ++ rest), sock⟩ m
    junk.length m.payload.length
    (by rw [findIdx_append_all_ne junk _ hjunk, findIdx_mkFrame_head]; omega)
    (by rw [getD_append_right_one, getD_mkFrame_one])
    (by simp only [List.length_append, hfl, msg_body_size]; omega)
    (by simp only [List.length_append, hfl]; omega)
    (by rw [List.drop_left, ← hfl, List.take_left, read_v1_msg_mkFrame])
  rw [this, hstate]

theorem recv_corrupt_at_head (fuel : Nat) (mc : Msg) (rest sock : List Nat)
    (hrest : rest ≠ []) :
    recvLoop (fuel + 1) ⟨mkCorruptFrame mc ++ rest, sock⟩
      = recvLoop fuel ⟨(mkCorruptFrame mc).tail ++ rest, sock⟩ := by
  have hrl : 0 < rest.length := List.length_pos.mpr hrest
  have hfl := mkCorruptFrame_length mc
  have hstate : (mkCorruptFrame mc ++ rest).drop (0 + 1)
      = (mkCorruptFrame mc).tail ++ rest := by
    simp [mkCorruptFrame]
  have := recv_step_badcrc fuel ⟨mkCorruptFrame mc ++ rest, sock⟩ 0 mc.payload.length
    (findIdx_mkCorruptFrame_head mc rest)
    (by simpa using getD_mkCorruptFrame_one mc rest)
    (by simp only [List.length_append, hfl, msg_body_size]; omega)
    (by simp only [List.length_append, hfl]; omega)
    (by rw [List.drop_zero, ← hfl, List.take_left, read_v1_msg_mkCorruptFrame])
  rw [this, hstate]

end Mavlink

namespace Mavlink

theorem recv_frame_exact_blocked (fuel : Nat) (junk : List Nat) (m : Msg)
    (hjunk : ∀ b ∈ junk, ¬ b = 0xFE) :
    recvLoop (fuel + 1) ⟨junk ++ mkFrame m, []⟩ = RecvResult.blocked := by
  rw [show junk ++ mkFrame m = junk ++ (mkFrame m ++ []) by simp]
  apply recv_step_frame_blocked fuel _ junk.length m.payload.length
  · rw [findIdx_append_all_ne junk _ hjunk, findIdx_mkFrame_head]
    omega
  · rw [getD_append_right_one, getD_mkFrame_one]
  · simp only [List.length_append, mkFrame_length, msg_body_size, List.length_nil]
    omega
  · simp only [List.length_append, mkFrame_length, List.length_nil]
    omega
  · rfl

theorem recv_first_read (fuel : Nat) (stream : List Nat) (hne : stream ≠ [])
    (hlen : stream.length ≤ 1024) :
    recvLoop (fuel + 1) ⟨[], stream⟩ = recvLoop fuel ⟨stream, []⟩ := by
  rw [recv_step_scan_read fuel ⟨[], stream⟩ (by simp) hne]
  unfold read_more
  simp [List.take_of_length_le hlen, List.drop_eq_nil_of_le hlen]

end Mavlink

/-- Claim C2, counterexample: the claim quantifies over every stream of
the form valid-frame, corrupted-frame, valid-frame and asserts that
repeated `recv` calls return exactly the two valid messages.  On the
exact such stream below (nothing after the final frame), the first call
returns the first message, but the second call never returns the second
message: before parsing a candidate the code demands the buffer extend
strictly beyond `magic_position + msg_body_size` (the `>=` comparison at
`client.rs` line 145), so with the final frame flush against the end of
the stream it keeps asking the socket for more bytes and blocks
forever. -/
theorem C2_recv_resync_counterexample :
    Mavlink.recvLoop 100
        ⟨[], Mavlink.mkFrame ⟨0, 1, 1, 0, [1, 2, 3]⟩
          ++ (Mavlink.mkCorruptFrame ⟨1, 1, 1, 0, [4, 5]⟩
            ++ Mavlink.mkFrame ⟨2, 1, 1, 0, [6]⟩)⟩
        = Mavlink.RecvResult.msg ⟨0, 1, 1, 0, [1, 2, 3]⟩
            ⟨Mavlink.mkCorruptFrame ⟨1, 1, 1, 0, [4, 5]⟩
              ++ Mavlink.mkFrame ⟨2, 1, 1, 0, [6]⟩, []⟩ ∧
      Mavlink.recvLoop 100
          ⟨Mavlink.mkCorruptFrame ⟨1, 1, 1, 0, [4, 5]⟩
            ++ Mavlink.mkFrame ⟨2, 1, 1, 0, [6]⟩, []⟩
        = Mavlink.RecvResult.blocked := by
  constructor
  · decide
  · decide

/-- Claim C2, amended: given one valid frame, then a frame whose checksum
is corrupted, then another valid frame, **provided** (i) at least one
byte follows the final frame (`recv` requires the buffer to extend
strictly past a candidate frame before parsing it, so a frame flush
against the end of input is never delivered) and (ii) the corrupted
frame contains no spurious `0xFE` byte after its leading magic, repeated
calls to `recv` return exactly the two valid messages in order; and in
general, on a checksum failure `recv` advances the buffer only past the
single magic byte just consumed (`magic_position + 1` bytes, not the
whole candidate frame) and resumes scanning from the buffer start. -/
theorem C2_recv_resync_amended (m1 mc m2 : Mavlink.Msg) (extra : Nat) (fuel : Nat)
    (hp1 : m1.payload.length ≤ 255) (hpc : mc.payload.length ≤ 255)
    (hp2 : m2.payload.length ≤ 255)
    (htail : ∀ b ∈ (Mavlink.mkCorruptFrame mc).tail, ¬ b = 0xFE) :
    Mavlink.recvLoop (fuel + 2)
        ⟨[], Mavlink.mkFrame m1
          ++ (Mavlink.mkCorruptFrame mc ++ (Mavlink.mkFrame m2 ++ [extra]))⟩
        = Mavlink.RecvResult.msg m1
            ⟨Mavlink.mkCorruptFrame mc ++ (Mavlink.mkFrame m2 ++ [extra]), []⟩ ∧
      Mavlink.recvLoop (fuel + 2)
          ⟨Mavlink.mkCorruptFrame mc ++ (Mavlink.mkFrame m2 ++ [extra]), []⟩
        = Mavlink.RecvResult.msg m2 ⟨[extra], []⟩ ∧
      (∀ (fuel2 : Nat) (s : Mavlink.LinkState) (pos plen : Nat),
        s.buf.findIdx (· == 0xFE) = pos → s.buf.getD (pos + 1) 0 = plen →
        pos + 2 < s.buf.length → pos + Mavlink.msg_body_size plen < s.buf.length →
        Mavlink.read_v1_msg ((s.buf.drop pos).take (Mavlink.msg_body_size plen))
          = Mavlink.ParseOutcome.invalidChecksum →
        Mavlink.recvLoop (fuel2 + 1) s
          = Mavlink.recvLoop fuel2 ⟨s.buf.drop (pos + 1), s.sock⟩) := by
  refine ⟨?_, ?_, ?_⟩
  · have hne : Mavlink.mkFrame m1
        ++ (Mavlink.mkCorruptFrame mc ++ (Mavlink.mkFrame m2 ++ [extra])) ≠ [] := by
      simp [Mavlink.mkFrame]
    have hlen : (Mavlink.mkFrame m1
        ++ (Mavlink.mkCorruptFrame mc ++ (Mavlink.mkFrame m2 ++ [extra]))).length
          ≤ 1024 := by
      simp only [List.length_append, Mavlink.mkFrame_length,
        Mavlink.mkCorruptFrame_length, Mavlink.msg_body_size, List.length_cons,
        List.length_nil]
      omega
    rw [Mavlink.recv_first_read (fuel + 1) _ hne hlen]
    exact Mavlink.recv_frame_after_junk fuel [] m1 _ []
      (by simp) (by simp [Mavlink.mkCorruptFrame])
  · rw [Mavlink.recv_corrupt_at_head (fuel + 1) mc _ [] (by simp [Mavlink.mkFrame])]
    exact Mavlink.recv_frame_after_junk fuel ((Mavlink.mkCorruptFrame mc).tail) m2
      [extra] [] htail (by simp)
  · intro fuel2 s pos plen hpos hplen h1 h2 h3
    exact Mavlink.recv_step_badcrc fuel2 s pos plen hpos hplen h1 h2 h3

/-- Claim C2, witness: the amended theorem applied to the concrete
three-frame stream used in the counterexample with one extra trailing
byte: both valid messages are now returned in order. -/
theorem C2_recv_resync_amended_witness :
    Mavlink.recvLoop 2
        ⟨[], Mavlink.mkFrame ⟨0, 1, 1, 0, [1, 2, 3]⟩
          ++ (Mavlink.mkCorruptFrame ⟨1, 1, 1, 0, [4, 5]⟩
            ++ (Mavlink.mkFrame ⟨2, 1, 1, 0, [6]⟩ ++ [0]))⟩
        = Mavlink.RecvResult.msg ⟨0, 1, 1, 0, [1, 2, 3]⟩
            ⟨Mavlink.mkCorruptFrame ⟨1, 1, 1, 0, [4, 5]⟩
              ++ (Mavlink.mkFrame ⟨2, 1, 1, 0, [6]⟩ ++ [0]), []⟩ ∧
      Mavlink.recvLoop 2
          ⟨Mavlink.mkCorruptFrame ⟨1, 1, 1, 0, [4, 5]⟩
            ++ (Mavlink.mkFrame ⟨2, 1, 1, 0, [6]⟩ ++ [0]), []⟩
        = Mavlink.RecvResult.msg ⟨2, 1, 1, 0, [6]⟩ ⟨[0], []⟩ :=
  ⟨(C2_recv_resync_amended ⟨0, 1, 1, 0, [1, 2, 3]⟩ ⟨1, 1, 1, 0, [4, 5]⟩
      ⟨2, 1, 1, 0, [6]⟩ 0 0 (by norm_num) (by norm_num) (by norm_num) (by decide)).1,
    (C2_recv_resync_amended ⟨0, 1, 1, 0, [1, 2, 3]⟩ ⟨1, 1, 1, 0, [4, 5]⟩
      ⟨2, 1, 1, 0, [6]⟩ 0 0 (by norm_num) (by norm_num) (by norm_num) (by decide)).2.1⟩

/-- Claim C3, counterexample: the claim states the frame size computed
from the declared payload length `L` is `L` plus a fixed **10**-byte
overhead.  The code computes `payload_len as usize + 8`; for `L = 3` the
candidate size is 11, not 13, and a successful decode of an 11-byte
frame with payload length 3 advances the buffer by exactly 11 bytes,
leaving the three trailing junk bytes. -/
theorem C3_frame_overhead_counterexample :
    Mavlink.msg_body_size 3 = 3 + 8 ∧ ¬ Mavlink.msg_body_size 3 = 3 + 10 ∧
      Mavlink.recvLoop 10 ⟨Mavlink.mkFrame ⟨7, 1, 1, 0, [9, 9, 9]⟩ ++ [0, 0, 0], []⟩
        = Mavlink.RecvResult.msg ⟨7, 1, 1, 0, [9, 9, 9]⟩ ⟨[0, 0, 0], []⟩ :=
  ⟨rfl, by decide, by decide⟩

/-- Claim C3, amended: the total frame size computed from the declared
payload length `L` (the byte immediately after the magic) is `L` plus a
fixed **8**-byte overhead — 1 magic + 1 length + 3 further header bytes
(sequence, system id, component id) + 1 message id + 2 checksum — which
is exactly the length of a well-formed MAVLink v1 frame; on a successful
decode the buffer is advanced past exactly `magic_position + L + 8`
bytes. -/
theorem C3_frame_overhead_amended :
    (∀ L, Mavlink.msg_body_size L = L + 8) ∧
      (∀ m : Mavlink.Msg,
        (Mavlink.mkFrame m).length = Mavlink.msg_body_size m.payload.length) ∧
      (∀ (fuel : Nat) (s : Mavlink.LinkState) (m : Mavlink.Msg) (pos plen : Nat),
        s.buf.findIdx (· == 0xFE) = pos → s.buf.getD (pos + 1) 0 = plen →
        pos + 2 < s.buf.length → pos + Mavlink.msg_body_size plen < s.buf.length →
        Mavlink.read_v1_msg ((s.buf.drop pos).take (Mavlink.msg_body_size plen))
          = Mavlink.ParseOutcome.ok m →
        Mavlink.recvLoop (fuel + 1) s
          = Mavlink.RecvResult.msg m
              ⟨s.buf.drop (pos + Mavlink.msg_body_size plen), s.sock⟩) :=
  ⟨fun _ => rfl, Mavlink.mkFrame_length,
    fun fuel s m pos plen hpos hplen h1 h2 h3 =>
      Mavlink.recv_step_ok fuel s m pos plen hpos hplen h1 h2 h3⟩

/-- Claim C3, witness: the advance property applied to a concrete
9-byte frame (payload length 1) followed by one junk byte: the decode
consumes `0 + 1 + 8` bytes and leaves exactly the junk byte. -/
theorem C3_frame_overhead_amended_witness :
    Mavlink.recvLoop 1 ⟨Mavlink.mkFrame ⟨7, 1, 1, 0, [9]⟩ ++ [0], []⟩
      = Mavlink.RecvResult.msg ⟨7, 1, 1, 0, [9]⟩ ⟨[0], []⟩ :=
  (C3_frame_overhead_amended.2.2 0 ⟨Mavlink.mkFrame ⟨7, 1, 1, 0, [9]⟩ ++ [0], []⟩
      ⟨7, 1, 1, 0, [9]⟩ 0 1 (by decide) (by decide) (by decide) (by decide)
      (by decide)).trans (by decide)
